import Mathlib

set_option maxRecDepth 1000000

/-!
# OTP lifecycle engine — verification of the Python sample server

A shallow embedding of the WhatsApp OTP sample server (`server.py`):
the code generator, SHA-256 hashing, constant-time verification, and
the issue/verify state machine over the in-memory store, together with
theorems settling the specification's claims.

Machine integers are modelled as `Nat` with explicit `% 2^32` where the
source's 32-bit arithmetic wraps; the store (a Python dict) is modelled
as a function from identifiers to optional records; time (`datetime`)
is modelled as a `Nat` count of seconds.
-/

namespace OtpServer

/-! ## 32-bit word operations

SHA-256 works on 32-bit words. We represent words as `Nat` kept below
`2 ^ 32` by explicit reduction, with bitwise operations defined by
structural recursion on a 32-step fuel so that every operation reduces
in the kernel. -/

/-- `2 ^ 32`, the word modulus. -/
def M32 : Nat := 4294967296

/-- Bitwise exclusive-or of the low `fuel` bits of `a` and `b`. -/
def xorAux : Nat → Nat → Nat → Nat
  | 0, _, _ => 0
  | fuel + 1, a, b =>
    (if a % 2 = b % 2 then 0 else 1) + 2 * xorAux fuel (a / 2) (b / 2)

/-- Bitwise exclusive-or on 32-bit words. -/
def xor32 (a b : Nat) : Nat := xorAux 32 a b

/-- Bitwise and of the low `fuel` bits of `a` and `b`. -/
def andAux : Nat → Nat → Nat → Nat
  | 0, _, _ => 0
  | fuel + 1, a, b =>
    (if a % 2 = 1 then b % 2 else 0) + 2 * andAux fuel (a / 2) (b / 2)

/-- Bitwise and on 32-bit words. -/
def and32 (a b : Nat) : Nat := andAux 32 a b

/-- Bitwise complement on 32-bit words (argument first reduced mod `2 ^ 32`). -/
def not32 (a : Nat) : Nat := 4294967295 - a % M32

/-- Right rotation of a 32-bit word by `k` places, written arithmetically:
the low `k` bits wrap around to the top. -/
def rotr (k a : Nat) : Nat := a / 2 ^ k + a % 2 ^ k * 2 ^ (32 - k)

/-- Logical right shift of a 32-bit word. -/
def shr (k a : Nat) : Nat := a / 2 ^ k

/-! ## SHA-256 (FIPS 180-4)

Embedding of `hashlib.sha256`, used by `hash_code` in the source. The
message is a list of bytes (each a `Nat` below 256). -/

/-- The 64 SHA-256 round constants (FIPS 180-4 section 4.2.2), in decimal. -/
def K : List Nat :=
  [1116352408, 1899447441, 3049323471, 3921009573,
   961987163, 1508970993, 2453635748, 2870763221,
   3624381080, 310598401, 607225278, 1426881987,
   1925078388, 2162078206, 2614888103, 3248222580,
   3835390401, 4022224774, 264347078, 604807628,
   770255983, 1249150122, 1555081692, 1996064986,
   2554220882, 2821834349, 2952996808, 3210313671,
   3336571891, 3584528711, 113926993, 338241895,
   666307205, 773529912, 1294757372, 1396182291,
   1695183700, 1986661051, 2177026350, 2456956037,
   2730485921, 2820302411, 3259730800, 3345764771,
   3516065817, 3600352804, 4094571909, 275423344,
   430227734, 506948616, 659060556, 883997877,
   958139571, 1322822218, 1537002063, 1747873779,
   1955562222, 2024104815, 2227730452, 2361852424,
   2428436474, 2756734187, 3204031479, 3329325298]

/-- The eight initial hash values (FIPS 180-4 section 5.3.3), in decimal. -/
def H0 : List Nat :=
  [1779033703, 3144134277, 1013904242, 2773480762,
   1359893119, 2600822924, 528734635, 1541459225]

/-- `n` bytes of `v`, most significant first. -/
def toBytesBE : Nat → Nat → List Nat
  | 0, _ => []
  | n + 1, v => toBytesBE n (v / 256) ++ [v % 256]

/-- SHA-256 message padding: a `0x80` byte, zeros to 56 mod 64, then the
bit length as eight big-endian bytes. -/
def pad (msg : List Nat) : List Nat :=
  msg ++ 0x80 :: List.replicate ((119 - msg.length % 64) % 64) 0
      ++ toBytesBE 8 (8 * msg.length)

/-- Split a byte list into 64-byte blocks; the fuel bounds the number of
blocks and is instantiated with the list's length, which always suffices. -/
def chunksAux : Nat → List Nat → List (List Nat)
  | 0, _ => []
  | fuel + 1, l => if l = [] then [] else l.take 64 :: chunksAux fuel (l.drop 64)

/-- Split a byte list into 64-byte blocks. -/
def chunks (l : List Nat) : List (List Nat) := chunksAux l.length l

/-- Pack bytes into big-endian 32-bit words, four bytes each. -/
def bytesToWords : List Nat → List Nat
  | b0 :: b1 :: b2 :: b3 :: rest =>
    (((b0 * 256 + b1) * 256 + b2) * 256 + b3) :: bytesToWords rest
  | _ => []

/-- σ₀, the first small sigma function of the message schedule. -/
def smallSigma0 (x : Nat) : Nat := xor32 (rotr 7 x) (xor32 (rotr 18 x) (shr 3 x))

/-- σ₁, the second small sigma function of the message schedule. -/
def smallSigma1 (x : Nat) : Nat := xor32 (rotr 17 x) (xor32 (rotr 19 x) (shr 10 x))

/-- Σ₀, the first big sigma function of the compression rounds. -/
def bigSigma0 (x : Nat) : Nat := xor32 (rotr 2 x) (xor32 (rotr 13 x) (rotr 22 x))

/-- Σ₁, the second big sigma function of the compression rounds. -/
def bigSigma1 (x : Nat) : Nat := xor32 (rotr 6 x) (xor32 (rotr 11 x) (rotr 25 x))

/-- The choice function `Ch`. -/
def ch (x y z : Nat) : Nat := xor32 (and32 x y) (and32 (not32 x) z)

/-- The majority function `Maj`. -/
def maj (x y z : Nat) : Nat := xor32 (and32 x y) (xor32 (and32 x z) (and32 y z))

/-- Extend the schedule by `fuel` words; `acc` holds the words produced so
far, most recent first. -/
def schedAux : Nat → List Nat → List Nat
  | 0, acc => acc.reverse
  | fuel + 1, acc =>
    schedAux fuel
      ((smallSigma1 (acc.getD 1 0) + acc.getD 6 0
          + smallSigma0 (acc.getD 14 0) + acc.getD 15 0) % M32 :: acc)

/-- The 64-word message schedule from the 16 words of a block. -/
def schedule (w : List Nat) : List Nat := schedAux 48 w.reverse

/-- The 64 compression rounds over the zipped (constant, schedule-word)
pairs, threading the eight working variables. -/
def compressRounds : List (Nat × Nat) → Nat → Nat → Nat → Nat → Nat → Nat → Nat → Nat → List Nat
  | [], a, b, c, d, e, f, g, h => [a, b, c, d, e, f, g, h]
  | (k, w) :: rest, a, b, c, d, e, f, g, h =>
    let t1 := (h + bigSigma1 e + ch e f g + k + w) % M32
    let t2 := (bigSigma0 a + maj a b c) % M32
    compressRounds rest ((t1 + t2) % M32) a b c ((d + t1) % M32) e f g

/-- One SHA-256 block step: run the rounds and add the result into the
intermediate hash, word by word mod `2 ^ 32`. -/
def compressBlock (hs : List Nat) (block : List Nat) : List Nat :=
  let w := schedule (bytesToWords block)
  let out := compressRounds (K.zip w)
    (hs.getD 0 0) (hs.getD 1 0) (hs.getD 2 0) (hs.getD 3 0)
    (hs.getD 4 0) (hs.getD 5 0) (hs.getD 6 0) (hs.getD 7 0)
  List.zipWith (fun x y => (x + y) % M32) hs out

/-- SHA-256 of a byte list: the eight digest words. -/
def sha256Bytes (msg : List Nat) : List Nat :=
  (chunks (pad msg)).foldl compressBlock H0

/-- UTF-8 encoding of one character, as Python's `str.encode` produces. -/
def utf8Char (c : Char) : List Nat :=
  let n := c.toNat
  if n < 0x80 then [n]
  else if n < 0x800 then [0xc0 + n / 64, 0x80 + n % 64]
  else if n < 0x10000 then
    [0xe0 + n / 4096, 0x80 + n / 64 % 64, 0x80 + n % 64]
  else
    [0xf0 + n / 262144, 0x80 + n / 4096 % 64, 0x80 + n / 64 % 64, 0x80 + n % 64]

/-- UTF-8 bytes of a string (`code.encode()` in the source). -/
def utf8Bytes (s : String) : List Nat := (s.data.map utf8Char).flatten

/-- The SHA-256 digest of a string's UTF-8 bytes, read as one 256-bit
big-endian number. -/
def sha256Nat (s : String) : Nat :=
  (sha256Bytes (utf8Bytes s)).foldl (fun acc w => acc * M32 + w) 0

/-- `n` lowercase hex digits of `v`, most significant first. -/
def toHexBE : Nat → Nat → List Char
  | 0, _ => []
  | n + 1, v =>
    toHexBE n (v / 16)
      ++ [Char.ofNat (if v % 16 < 10 then 48 + v % 16 else 87 + v % 16)]

/-- `hash_code` from the source: the SHA-256 hash of the code's UTF-8
bytes as a 64-character lowercase hexadecimal string (`hexdigest`). -/
def hash_code (code : String) : String := String.mk (toHexBE 64 (sha256Nat code))

/-- `verify_code` from the source: hash the provided code and compare to
the stored hash with `hmac.compare_digest`, which on these ASCII hex
strings returns exactly their equality (in constant time, a
non-functional property outside the model). -/
def verify_code (provided_code stored_hash : String) : Bool :=
  hash_code provided_code == stored_hash

/-! ## Configuration constants (from the source header) -/

/-- `CODE_LENGTH` from the source. -/
def CODE_LENGTH : Nat := 6

/-- `CODE_LIFETIME_MINUTES` from the source. -/
def CODE_LIFETIME_MINUTES : Nat := 5

/-- `MAX_VERIFICATION_ATTEMPTS` from the source. -/
def MAX_VERIFICATION_ATTEMPTS : Nat := 3

/-! ## Code generation

`generate_code` draws `secrets.randbelow(max_val - min_val + 1)` and adds
`min_val`; the draw outcome is the parameter `r`, ranging over
`[0, max_val - min_val + 1)`. `str(code)` and `zfill` are embedded below. -/

/-- Little-endian decimal digits of `n`, by fuel-guarded division; the
fuel is instantiated with `n` itself, which always suffices. -/
def natDigitsAux : Nat → Nat → List Nat
  | 0, _ => []
  | _, 0 => []
  | fuel + 1, n => n % 10 :: natDigitsAux fuel (n / 10)

/-- Python's `str` on a nonnegative integer: its decimal digit string. -/
def natToString (n : Nat) : String :=
  if n = 0 then "0"
  else String.mk ((natDigitsAux n n).reverse.map fun d => Char.ofNat (48 + d))

/-- Python's `str.zfill`: left-pad with `'0'` to length `width`. -/
def zfill (width : Nat) (s : String) : String :=
  if width ≤ s.length then s
  else String.mk (List.replicate (width - s.length) '0' ++ s.data)

/-- The number of possible outcomes of the source's random draw,
`max_val - min_val + 1`. -/
def drawCount : Nat := 10 ^ CODE_LENGTH - 1 - 10 ^ (CODE_LENGTH - 1) + 1

/-- `generate_code` from the source, as a function of the outcome `r` of
`secrets.randbelow(max_val - min_val + 1)`:
`str(min_val + r).zfill(CODE_LENGTH)`. -/
def generate_code (r : Nat) : String :=
  zfill CODE_LENGTH (natToString (10 ^ (CODE_LENGTH - 1) + r))

/-- The numeric value of a decimal digit string, for stating range facts
about generated codes. -/
def codeValue (s : String) : Nat :=
  s.data.foldl (fun acc c => acc * 10 + (c.toNat - 48)) 0

/-! ## The OTP store and its operations

`active_codes` is a Python dict from phone number to
`{"code_hash": str, "expiration": datetime, "attempts": int}`; we model
it as a function from identifiers to optional records and `datetime`
as seconds. -/

/-- One entry of `active_codes`. -/
structure OtpRecord where
  code_hash : String
  expiration : Nat
  attempts : Nat
deriving DecidableEq

/-- The `active_codes` dict. -/
def Store : Type := String → Option OtpRecord

/-- The empty store (server start). -/
def emptyStore : Store := fun _ => none

/-- `active_codes.get(p)`. -/
def lookupStore (p : String) (s : Store) : Option OtpRecord := s p

/-- `active_codes[p] = rec` (dict assignment, replacing any prior entry). -/
def insertStore (p : String) (rec : OtpRecord) (s : Store) : Store :=
  fun q => if q = p then some rec else s q

/-- `del active_codes[p]`. -/
def eraseStore (p : String) (s : Store) : Store :=
  fun q => if q = p then none else s q

/-- The verify endpoint's outcomes, one per response branch of
`verify_otp` in the source. -/
inductive Outcome where
  | notFound
  | badRequest
  | expired
  | tooManyAttempts
  | incorrectCode (remaining : Nat)
  | success
deriving DecidableEq

/-- The issue endpoint's outcomes: HTTP 200 / HTTP 500. -/
inductive IssueResult where
  | sent
  | deliveryError
deriving DecidableEq

/-- `verify_otp` from the source, on the store state: `now` is the time of
the call, `cand` the request body's `"code"` field (`none` when the body
is missing, unparsable or has no such key; Python's `if not provided_code`
also treats the empty string as missing). -/
def verify_otp (now : Nat) (phone_number : String) (cand : Option String)
    (s : Store) : Outcome × Store :=
  match lookupStore phone_number s with
  | none => (Outcome.notFound, s)
  | some active_code =>
    match cand with
    | none => (Outcome.badRequest, s)
    | some provided_code =>
      if provided_code = "" then (Outcome.badRequest, s)
      else if active_code.expiration < now then
        (Outcome.expired, eraseStore phone_number s)
      else if MAX_VERIFICATION_ATTEMPTS ≤ active_code.attempts then
        (Outcome.tooManyAttempts, eraseStore phone_number s)
      else if verify_code provided_code active_code.code_hash then
        (Outcome.success, eraseStore phone_number s)
      else
        let attempts := active_code.attempts + 1
        if MAX_VERIFICATION_ATTEMPTS ≤ attempts then
          (Outcome.tooManyAttempts, eraseStore phone_number s)
        else
          (Outcome.incorrectCode (MAX_VERIFICATION_ATTEMPTS - attempts),
            insertStore phone_number { active_code with attempts := attempts } s)

/-- `send_otp` from the source, on the store state: `now` is the time of
the call, `r` the outcome of the generator's random draw, and
`deliveryOk` whether the WhatsApp send call returned HTTP 200 (`false`
covers both a non-200 response and a raised exception; in either case
the handler returns 500 before reaching the store assignment). -/
def send_otp (now r : Nat) (phone_number : String) (deliveryOk : Bool)
    (s : Store) : IssueResult × Store :=
  let code := generate_code r
  let expiration := now + CODE_LIFETIME_MINUTES * 60
  if deliveryOk then
    (IssueResult.sent,
      insertStore phone_number
        { code_hash := hash_code code, expiration := expiration, attempts := 0 } s)
  else
    (IssueResult.deliveryError, s)

/-- The stores reachable from the empty store by any sequence of issue
and verify operations. -/
inductive Reachable : Store → Prop where
  | empty : Reachable emptyStore
  | issue (now r : Nat) (p : String) (ok : Bool) {s : Store} :
      Reachable s → Reachable (send_otp now r p ok s).2
  | verify (now : Nat) (p : String) (cand : Option String) {s : Store} :
      Reachable s → Reachable (verify_otp now p cand s).2

/-! ## Store lemmas -/

theorem lookup_insert_self (p : String) (rec : OtpRecord) (s : Store) :
    lookupStore p (insertStore p rec s) = some rec := by
  simp [lookupStore, insertStore]

theorem lookup_insert_ne {q p : String} (h : q ≠ p) (rec : OtpRecord) (s : Store) :
    lookupStore q (insertStore p rec s) = lookupStore q s := by
  simp [lookupStore, insertStore, h]

theorem lookup_erase_self (p : String) (s : Store) :
    lookupStore p (eraseStore p s) = none := by
  simp [lookupStore, eraseStore]

theorem lookup_erase_ne {q p : String} (h : q ≠ p) (s : Store) :
    lookupStore q (eraseStore p s) = lookupStore q s := by
  simp [lookupStore, eraseStore, h]

/-! ## Branch lemmas for `verify_otp`

One lemma per response branch of the handler, each under exactly the
guards that lead the source to that branch. -/

theorem verify_not_found {now : Nat} {p : String} {cand : Option String} {s : Store}
    (h : lookupStore p s = none) :
    verify_otp now p cand s = (Outcome.notFound, s) := by
  unfold verify_otp; rw [h]

theorem verify_bad_request_none {now : Nat} {p : String} {s : Store} {rec : OtpRecord}
    (h : lookupStore p s = some rec) :
    verify_otp now p none s = (Outcome.badRequest, s) := by
  unfold verify_otp; rw [h]

theorem verify_bad_request_empty {now : Nat} {p : String} {s : Store} {rec : OtpRecord}
    (h : lookupStore p s = some rec) :
    verify_otp now p (some "") s = (Outcome.badRequest, s) := by
  unfold verify_otp; rw [h]; simp

theorem verify_expired {now : Nat} {p c : String} {s : Store} {rec : OtpRecord}
    (h : lookupStore p s = some rec) (hc : c ≠ "") (hexp : rec.expiration < now) :
    verify_otp now p (some c) s = (Outcome.expired, eraseStore p s) := by
  unfold verify_otp; rw [h]; simp [hc, hexp]

theorem verify_too_many_pre {now : Nat} {p c : String} {s : Store} {rec : OtpRecord}
    (h : lookupStore p s = some rec) (hc : c ≠ "") (hexp : ¬ rec.expiration < now)
    (hatt : MAX_VERIFICATION_ATTEMPTS ≤ rec.attempts) :
    verify_otp now p (some c) s = (Outcome.tooManyAttempts, eraseStore p s) := by
  unfold verify_otp; rw [h]; simp [hc, hexp, hatt]

theorem verify_success_branch {now : Nat} {p c : String} {s : Store} {rec : OtpRecord}
    (h : lookupStore p s = some rec) (hc : c ≠ "") (hexp : ¬ rec.expiration < now)
    (hatt : rec.attempts < MAX_VERIFICATION_ATTEMPTS)
    (hv : verify_code c rec.code_hash = true) :
    verify_otp now p (some c) s = (Outcome.success, eraseStore p s) := by
  unfold verify_otp; rw [h]; simp [hc, hexp, Nat.not_le.mpr hatt, hv]

theorem verify_too_many_post {now : Nat} {p c : String} {s : Store} {rec : OtpRecord}
    (h : lookupStore p s = some rec) (hc : c ≠ "") (hexp : ¬ rec.expiration < now)
    (hatt : rec.attempts < MAX_VERIFICATION_ATTEMPTS)
    (hv : verify_code c rec.code_hash = false)
    (h3 : MAX_VERIFICATION_ATTEMPTS ≤ rec.attempts + 1) :
    verify_otp now p (some c) s = (Outcome.tooManyAttempts, eraseStore p s) := by
  unfold verify_otp; rw [h]; simp [hc, hexp, Nat.not_le.mpr hatt, hv, h3]

theorem verify_incorrect {now : Nat} {p c : String} {s : Store} {rec : OtpRecord}
    (h : lookupStore p s = some rec) (hc : c ≠ "") (hexp : ¬ rec.expiration < now)
    (hatt : rec.attempts < MAX_VERIFICATION_ATTEMPTS)
    (hv : verify_code c rec.code_hash = false)
    (h3 : rec.attempts + 1 < MAX_VERIFICATION_ATTEMPTS) :
    verify_otp now p (some c) s
      = (Outcome.incorrectCode (MAX_VERIFICATION_ATTEMPTS - (rec.attempts + 1)),
         insertStore p { rec with attempts := rec.attempts + 1 } s) := by
  unfold verify_otp; rw [h]; simp [hc, hexp, Nat.not_le.mpr hatt, hv, Nat.not_le.mpr h3]

/-- The store after a verify is the input store, the input store with the
identifier's record erased, or — only in the incorrect-code branch, with
the post-increment count still below the ceiling — the input store with
the record's attempt count incremented. -/
theorem verify_store_cases (now : Nat) (x : String) (cand : Option String) (s : Store) :
    (verify_otp now x cand s).2 = s
  ∨ (verify_otp now x cand s).2 = eraseStore x s
  ∨ ∃ rec, lookupStore x s = some rec ∧ rec.attempts + 1 < MAX_VERIFICATION_ATTEMPTS ∧
      (verify_otp now x cand s).2 = insertStore x { rec with attempts := rec.attempts + 1 } s := by
  cases hl : lookupStore x s with
  | none => rw [verify_not_found hl]; exact Or.inl rfl
  | some rec =>
    cases cand with
    | none => rw [verify_bad_request_none hl]; exact Or.inl rfl
    | some c =>
      by_cases hc : c = ""
      · subst hc; rw [verify_bad_request_empty hl]; exact Or.inl rfl
      · by_cases hexp : rec.expiration < now
        · rw [verify_expired hl hc hexp]; exact Or.inr (Or.inl rfl)
        · by_cases hatt : MAX_VERIFICATION_ATTEMPTS ≤ rec.attempts
          · rw [verify_too_many_pre hl hc hexp hatt]; exact Or.inr (Or.inl rfl)
          · have hlt := Nat.lt_of_not_le hatt
            cases hv : verify_code c rec.code_hash with
            | true =>
              rw [verify_success_branch hl hc hexp hlt hv]; exact Or.inr (Or.inl rfl)
            | false =>
              by_cases h3 : MAX_VERIFICATION_ATTEMPTS ≤ rec.attempts + 1
              · rw [verify_too_many_post hl hc hexp hlt hv h3]; exact Or.inr (Or.inl rfl)
              · rw [verify_incorrect hl hc hexp hlt hv (Nat.lt_of_not_le h3)]
                exact Or.inr (Or.inr ⟨rec, rfl, Nat.lt_of_not_le h3, rfl⟩)

/-! ## Claim theorems -/

/-- C1: the verify operation, for every identifier and candidate code,
evaluates its checks in exactly this order with first match winning:
no record yields NotFound with no mutation; missing/empty candidate
yields BadRequest with no mutation; `now` strictly past `expiresAt`
deletes the record and yields Expired; stored attempts at the ceiling
deletes the record and yields TooManyAttempts; otherwise a hash match
deletes the record and yields Success, and a mismatch increments the
count, yielding TooManyAttempts with deletion when the post-increment
count reaches the ceiling and IncorrectCode with
`remaining = maxAttempts - attempts` otherwise. -/
theorem C1_verify_check_order (now : Nat) (p : String) (cand : Option String) (s : Store) :
    (lookupStore p s = none → verify_otp now p cand s = (Outcome.notFound, s))
  ∧ (∀ rec, lookupStore p s = some rec → cand = none ∨ cand = some "" →
      verify_otp now p cand s = (Outcome.badRequest, s))
  ∧ (∀ rec c, lookupStore p s = some rec → cand = some c → c ≠ "" →
      rec.expiration < now →
      verify_otp now p cand s = (Outcome.expired, eraseStore p s))
  ∧ (∀ rec c, lookupStore p s = some rec → cand = some c → c ≠ "" →
      ¬ rec.expiration < now → MAX_VERIFICATION_ATTEMPTS ≤ rec.attempts →
      verify_otp now p cand s = (Outcome.tooManyAttempts, eraseStore p s))
  ∧ (∀ rec c, lookupStore p s = some rec → cand = some c → c ≠ "" →
      ¬ rec.expiration < now → rec.attempts < MAX_VERIFICATION_ATTEMPTS →
      verify_code c rec.code_hash = true →
      verify_otp now p cand s = (Outcome.success, eraseStore p s))
  ∧ (∀ rec c, lookupStore p s = some rec → cand = some c → c ≠ "" →
      ¬ rec.expiration < now → rec.attempts < MAX_VERIFICATION_ATTEMPTS →
      verify_code c rec.code_hash = false →
      MAX_VERIFICATION_ATTEMPTS ≤ rec.attempts + 1 →
      verify_otp now p cand s = (Outcome.tooManyAttempts, eraseStore p s))
  ∧ (∀ rec c, lookupStore p s = some rec → cand = some c → c ≠ "" →
      ¬ rec.expiration < now → rec.attempts < MAX_VERIFICATION_ATTEMPTS →
      verify_code c rec.code_hash = false →
      rec.attempts + 1 < MAX_VERIFICATION_ATTEMPTS →
      verify_otp now p cand s
        = (Outcome.incorrectCode (MAX_VERIFICATION_ATTEMPTS - (rec.attempts + 1)),
           insertStore p { rec with attempts := rec.attempts + 1 } s)) := by
  refine ⟨fun h => verify_not_found h, ?_, ?_, ?_, ?_, ?_, ?_⟩
  · rintro rec h (h' | h') <;> subst h'
    · exact verify_bad_request_none h
    · exact verify_bad_request_empty h
  · rintro rec c h rfl hc hexp; exact verify_expired h hc hexp
  · rintro rec c h rfl hc hexp hatt; exact verify_too_many_pre h hc hexp hatt
  · rintro rec c h rfl hc hexp hatt hv; exact verify_success_branch h hc hexp hatt hv
  · rintro rec c h rfl hc hexp hatt hv h3; exact verify_too_many_post h hc hexp hatt hv h3
  · rintro rec c h rfl hc hexp hatt hv h3; exact verify_incorrect h hc hexp hatt hv h3

/-- Witness for C1: on the empty store the first check fires and the
verify returns NotFound with the store untouched. -/
theorem C1_verify_check_order_witness :
    verify_otp 5 "16505551234" none emptyStore = (Outcome.notFound, emptyStore) :=
  (C1_verify_check_order 5 "16505551234" none emptyStore).1 rfl

/-- C2: the issue operation mutates the store only after the delivery
call succeeds — on failure the store is returned unchanged with a
delivery error, and on success the record written for the identifier is
exactly `{codeHash := hash(code), expiresAt := now + lifetime,
attempts := 0}`, replacing any prior record. -/
theorem C2_issue_mutates_only_after_delivery (now r : Nat) (p : String) (s : Store) :
    send_otp now r p false s = (IssueResult.deliveryError, s)
  ∧ send_otp now r p true s
      = (IssueResult.sent,
         insertStore p
           { code_hash := hash_code (generate_code r),
             expiration := now + CODE_LIFETIME_MINUTES * 60,
             attempts := 0 } s)
  ∧ lookupStore p (send_otp now r p true s).2
      = some { code_hash := hash_code (generate_code r),
               expiration := now + CODE_LIFETIME_MINUTES * 60,
               attempts := 0 } :=
  ⟨rfl, rfl, lookup_insert_self p _ s⟩

/-- C10: an issue or verify operation on one identifier leaves the store
entry of every other identifier unchanged, for every outcome of the
operation. -/
theorem C10_frame_other_identifiers (x y : String) (hyx : y ≠ x) (now r : Nat)
    (ok : Bool) (cand : Option String) (s : Store) :
    lookupStore y (send_otp now r x ok s).2 = lookupStore y s
  ∧ lookupStore y (verify_otp now x cand s).2 = lookupStore y s := by
  constructor
  · cases ok
    · rfl
    · exact lookup_insert_ne hyx _ s
  · rcases verify_store_cases now x cand s with h | h | ⟨rec, -, -, h⟩ <;> rw [h]
    · exact lookup_erase_ne hyx s
    · exact lookup_insert_ne hyx _ s

/-- Witness for C10: an issue for one number and a verify for it leave a
second number's (absent) entry unchanged. -/
theorem C10_frame_other_identifiers_witness :
    lookupStore "15551230000" (send_otp 0 23456 "15559990000" true emptyStore).2
      = lookupStore "15551230000" emptyStore
  ∧ lookupStore "15551230000" (verify_otp 0 "15559990000" (some "1") emptyStore).2
      = lookupStore "15551230000" emptyStore :=
  C10_frame_other_identifiers "15559990000" "15551230000" (by decide) 0 23456 true
    (some "1") emptyStore

/-- The store component of a successful issue: the new record inserted. -/
theorem send_store_true (now r : Nat) (p : String) (s : Store) :
    (send_otp now r p true s).2
      = insertStore p
          { code_hash := hash_code (generate_code r),
            expiration := now + CODE_LIFETIME_MINUTES * 60, attempts := 0 } s := rfl

/-- A verify that returns Success leaves exactly the store with the
identifier's record deleted. -/
theorem verify_success_erase {now : Nat} {p : String} {cand : Option String}
    {s s2 : Store} (h : verify_otp now p cand s = (Outcome.success, s2)) :
    s2 = eraseStore p s := by
  cases hl : lookupStore p s with
  | none => rw [verify_not_found hl] at h; simp at h
  | some rec =>
    cases cand with
    | none => rw [verify_bad_request_none hl] at h; simp at h
    | some c =>
      by_cases hc : c = ""
      · subst hc; rw [verify_bad_request_empty hl] at h; simp at h
      · by_cases hexp : rec.expiration < now
        · rw [verify_expired hl hc hexp] at h; simp at h
        · by_cases hatt : MAX_VERIFICATION_ATTEMPTS ≤ rec.attempts
          · rw [verify_too_many_pre hl hc hexp hatt] at h; simp at h
          · have hlt := Nat.lt_of_not_le hatt
            rcases Bool.eq_false_or_eq_true (verify_code c rec.code_hash) with hv | hv
            · rw [verify_success_branch hl hc hexp hlt hv] at h
              exact (congrArg Prod.snd h).symm
            · by_cases h3 : MAX_VERIFICATION_ATTEMPTS ≤ rec.attempts + 1
              · rw [verify_too_many_post hl hc hexp hlt hv h3] at h; simp at h
              · rw [verify_incorrect hl hc hexp hlt hv (Nat.lt_of_not_le h3)] at h
                simp at h

/-- C3: one-time use — after a verify that returns Success, the record
for that identifier is gone, and a subsequent verify of the same
identifier with the same (correct) code returns NotFound. -/
theorem C3_one_time_use (now now2 : Nat) (p : String) (cand : Option String)
    (s s2 : Store) (h : verify_otp now p cand s = (Outcome.success, s2)) :
    lookupStore p s2 = none ∧ verify_otp now2 p cand s2 = (Outcome.notFound, s2) := by
  have hs2 : s2 = eraseStore p s := verify_success_erase h
  subst hs2
  exact ⟨lookup_erase_self p s, verify_not_found (lookup_erase_self p s)⟩

set_option maxHeartbeats 4000000 in
/-- Witness for C3: a concrete successful verification of code "123456",
after which the record is gone and a replay returns NotFound. -/
theorem C3_one_time_use_witness :
    lookupStore "15550001111"
        (eraseStore "15550001111"
          (insertStore "15550001111" ⟨hash_code "123456", 300, 0⟩ emptyStore)) = none
  ∧ verify_otp 7 "15550001111" (some "123456")
        (eraseStore "15550001111"
          (insertStore "15550001111" ⟨hash_code "123456", 300, 0⟩ emptyStore))
      = (Outcome.notFound,
         eraseStore "15550001111"
           (insertStore "15550001111" ⟨hash_code "123456", 300, 0⟩ emptyStore)) :=
  C3_one_time_use 1 7 "15550001111" (some "123456")
    (insertStore "15550001111" ⟨hash_code "123456", 300, 0⟩ emptyStore) _ (by rfl)

/-- C9: in every store reachable by issue and verify operations from the
empty store, every present record satisfies
`0 ≤ attempts < maxAttempts`; in particular the defensive
pre-comparison `attempts >= maxAttempts` guard of verify is false on
every reachable record. -/
theorem C9_reachable_attempts_lt_max :
    ∀ s : Store, Reachable s → ∀ p rec, lookupStore p s = some rec →
      0 ≤ rec.attempts ∧ rec.attempts < MAX_VERIFICATION_ATTEMPTS ∧
      ¬ MAX_VERIFICATION_ATTEMPTS ≤ rec.attempts := by
  intro s hs
  induction hs with
  | empty => intro q rec h; exact Option.noConfusion h
  | issue now r p ok hs ih =>
    intro q rec h
    cases ok with
    | false => exact ih q rec h
    | true =>
      by_cases hqp : q = p
      · subst hqp
        rw [send_store_true, lookup_insert_self] at h
        injection h with h'
        subst h'
        exact ⟨Nat.zero_le _, show (0 : Nat) < MAX_VERIFICATION_ATTEMPTS by decide,
          show ¬ MAX_VERIFICATION_ATTEMPTS ≤ (0 : Nat) by decide⟩
      · rw [send_store_true, lookup_insert_ne hqp] at h
        exact ih q rec h
  | verify now p cand hs ih =>
    intro q rec h
    rcases verify_store_cases now p cand _ with hc | hc | ⟨rec0, hl, hlt, hc⟩ <;>
      rw [hc] at h
    · exact ih q rec h
    · by_cases hqp : q = p
      · subst hqp; rw [lookup_erase_self] at h; exact Option.noConfusion h
      · rw [lookup_erase_ne hqp] at h; exact ih q rec h
    · by_cases hqp : q = p
      · subst hqp
        rw [lookup_insert_self] at h
        injection h with h'
        subst h'
        exact ⟨Nat.zero_le _, hlt, Nat.not_le.mpr hlt⟩
      · rw [lookup_insert_ne hqp] at h; exact ih q rec h

/-- Witness for C9: the record created by a concrete successful issue on
the empty store satisfies the invariant. -/
theorem C9_reachable_attempts_lt_max_witness :
    0 ≤ (OtpRecord.mk (hash_code (generate_code 23456)) 300 0).attempts
  ∧ (OtpRecord.mk (hash_code (generate_code 23456)) 300 0).attempts
      < MAX_VERIFICATION_ATTEMPTS
  ∧ ¬ MAX_VERIFICATION_ATTEMPTS
      ≤ (OtpRecord.mk (hash_code (generate_code 23456)) 300 0).attempts :=
  C9_reachable_attempts_lt_max _ (Reachable.issue 0 23456 "15550001111" true Reachable.empty)
    "15550001111" (OtpRecord.mk (hash_code (generate_code 23456)) 300 0) rfl

/-! ## Generator lemmas -/

/-- The fuel-guarded digit extractor agrees with `Nat.digits 10` whenever
the fuel is at least the number. -/
theorem natDigitsAux_eq_digits : ∀ fuel n, n ≤ fuel → natDigitsAux fuel n = Nat.digits 10 n := by
  intro fuel
  induction fuel with
  | zero =>
    intro n hn
    interval_cases n
    rw [Nat.digits_zero]
    rfl
  | succ fuel ih =>
    intro n hn
    match n with
    | 0 => rw [Nat.digits_zero]; rfl
    | m + 1 =>
      have hdiv : (m + 1) / 10 ≤ fuel :=
        Nat.lt_succ_iff.mp (Nat.lt_of_lt_of_le (Nat.div_lt_self (Nat.succ_pos m) (by norm_num)) hn)
      rw [show natDigitsAux (fuel + 1) (m + 1) = (m + 1) % 10 :: natDigitsAux fuel ((m + 1) / 10)
            from rfl,
          ih _ hdiv, Nat.digits_def' (by norm_num : 1 < 10) (Nat.succ_pos m)]

/-- `natToString` of a nonzero number: the base-10 digits, most
significant first, as digit characters. -/
theorem natToString_eq_digits {n : Nat} (h : n ≠ 0) :
    natToString n = String.mk ((Nat.digits 10 n).reverse.map fun d => Char.ofNat (48 + d)) := by
  unfold natToString
  rw [if_neg h, natDigitsAux_eq_digits n n le_rfl]

/-- Decoding a digit character recovers the digit. -/
theorem digit_char_toNat : ∀ d, d < 10 → (Char.ofNat (48 + d)).toNat - 48 = d := by decide

/-- A digit character is a digit. -/
theorem digit_char_isDigit : ∀ d, d < 10 → (Char.ofNat (48 + d)).isDigit = true := by decide

/-- Folding the decimal-value accumulator over the reversed digit
characters of a digit list computes `ofDigits`. -/
theorem foldl_digit_chars :
    ∀ l : List Nat, (∀ d ∈ l, d < 10) → ∀ acc : Nat,
      List.foldl (fun a c => a * 10 + (c.toNat - 48)) acc
          ((l.map fun d => Char.ofNat (48 + d)).reverse)
        = acc * 10 ^ l.length + Nat.ofDigits 10 l := by
  intro l
  induction l with
  | nil => intro _ acc; simp
  | cons d t ih =>
    intro hmem acc
    have hd : d < 10 := hmem d (List.mem_cons_self d t)
    simp only [List.map_cons, List.reverse_cons, List.foldl_append, List.foldl_cons,
      List.foldl_nil]
    rw [ih (fun x hx => hmem x (List.mem_cons_of_mem d hx)) acc, digit_char_toNat d hd,
      Nat.ofDigits_cons, List.length_cons]
    ring

/-- The decimal string of a number evaluates back to the number. -/
theorem codeValue_natToString (n : Nat) : codeValue (natToString n) = n := by
  by_cases h : n = 0
  · subst h; decide
  · rw [natToString_eq_digits h]
    show List.foldl (fun a c => a * 10 + (c.toNat - 48)) 0
        ((Nat.digits 10 n).reverse.map fun d => Char.ofNat (48 + d)) = n
    rw [List.map_reverse,
      foldl_digit_chars _ (fun d hd => Nat.digits_lt_base (by norm_num) hd) 0]
    simp [Nat.ofDigits_digits]

/-- The decimal string of a nonzero number has one character per digit. -/
theorem natToString_length {n : Nat} (h : n ≠ 0) :
    (natToString n).length = Nat.log 10 n + 1 := by
  rw [natToString_eq_digits h]
  simp [Nat.digits_len 10 n (by norm_num) h]

/-- The `zfill` in `generate_code` is a no-op: `min_val + r` already has
at least `CODE_LENGTH` digits for every draw outcome. -/
theorem generate_code_eq (r : Nat) :
    generate_code r = natToString (10 ^ (CODE_LENGTH - 1) + r) := by
  have hne : 10 ^ (CODE_LENGTH - 1) + r ≠ 0 := by positivity
  have hlog : 5 ≤ Nat.log 10 (10 ^ (CODE_LENGTH - 1) + r) :=
    (Nat.pow_le_iff_le_log (by norm_num) hne).mp (by simp [CODE_LENGTH])
  have hlen : CODE_LENGTH ≤ (natToString (10 ^ (CODE_LENGTH - 1) + r)).length := by
    rw [natToString_length hne]
    have h6 : CODE_LENGTH = 6 := rfl
    omega
  unfold generate_code zfill
  rw [if_pos hlen]

/-- The numeric value of a generated code is `min_val + r`. -/
theorem generate_code_value (r : Nat) :
    codeValue (generate_code r) = 10 ^ (CODE_LENGTH - 1) + r := by
  rw [generate_code_eq, codeValue_natToString]

/-- C5: for every outcome of the random draw, the generated code is a
decimal string of exactly `L = 6` digits whose numeric value lies in the
full 6-digit range `[10^(L-1), 10^L - 1]`. -/
theorem C5_generated_code_shape (r : Nat) (hr : r < drawCount) :
    (generate_code r).length = CODE_LENGTH
  ∧ (∀ c ∈ (generate_code r).data, c.isDigit = true)
  ∧ 10 ^ (CODE_LENGTH - 1) ≤ codeValue (generate_code r)
  ∧ codeValue (generate_code r) ≤ 10 ^ CODE_LENGTH - 1 := by
  have hdc : drawCount = 900000 := rfl
  have hne : 10 ^ (CODE_LENGTH - 1) + r ≠ 0 := by positivity
  refine ⟨?_, ?_, ?_, ?_⟩
  · rw [generate_code_eq, natToString_length hne]
    have hlog : Nat.log 10 (10 ^ (CODE_LENGTH - 1) + r) = 5 := by
      apply Nat.log_eq_of_pow_le_of_lt_pow
      · simp [CODE_LENGTH]
      · show 10 ^ (CODE_LENGTH - 1) + r < 10 ^ (5 + 1)
        have : (10 : Nat) ^ (CODE_LENGTH - 1) = 100000 := by norm_num [CODE_LENGTH]
        omega
    rw [hlog]
    rfl
  · intro c hc
    rw [generate_code_eq, natToString_eq_digits hne] at hc
    have hc' : c ∈ (Nat.digits 10 (10 ^ (CODE_LENGTH - 1) + r)).reverse.map
        fun d => Char.ofNat (48 + d) := hc
    obtain ⟨d, hd, rfl⟩ := List.mem_map.mp hc'
    exact digit_char_isDigit d
      (Nat.digits_lt_base (by norm_num) (List.mem_reverse.mp hd))
  · rw [generate_code_value]
    omega
  · rw [generate_code_value]
    have : (10 : Nat) ^ CODE_LENGTH = 1000000 := by norm_num [CODE_LENGTH]
    have h5 : (10 : Nat) ^ (CODE_LENGTH - 1) = 100000 := by norm_num [CODE_LENGTH]
    omega

/-- Witness for C5: the draw outcome 0 yields the code "100000", of
length 6, all digits, with value 100000. -/
theorem C5_generated_code_shape_witness :
    (generate_code 0).length = CODE_LENGTH
  ∧ (∀ c ∈ (generate_code 0).data, c.isDigit = true)
  ∧ 10 ^ (CODE_LENGTH - 1) ≤ codeValue (generate_code 0)
  ∧ codeValue (generate_code 0) ≤ 10 ^ CODE_LENGTH - 1 :=
  C5_generated_code_shape 0 (by decide)

/-- Counterexample for C6: the 6-digit string "012345" (leading zero) is
not a possible output of the generator, for any outcome of the draw —
the claim that all `10^L` digit strings are possible outputs is false. -/
theorem C6_counterexample :
    ¬ ∃ r, r < drawCount ∧ generate_code r = "012345" := by
  rintro ⟨r, hr, heq⟩
  have h1 : codeValue (generate_code r) = 10 ^ (CODE_LENGTH - 1) + r :=
    generate_code_value r
  rw [heq] at h1
  have h2 : codeValue "012345" = 12345 := by decide
  have h5 : (10 : Nat) ^ (CODE_LENGTH - 1) = 100000 := by norm_num [CODE_LENGTH]
  omega

/-- C6 (amended): the generator is a bijection from the `9·10^5` draw
outcomes onto the decimal strings of the numbers in
`[10^(L-1), 10^L - 1]` — each such string is produced by exactly one
draw, so codes are uniform over `9·10^5` values, not `10^L`. -/
theorem C6_uniform_over_full_range :
    (∀ r1 r2, r1 < drawCount → r2 < drawCount →
        generate_code r1 = generate_code r2 → r1 = r2)
  ∧ (∀ r, r < drawCount →
        10 ^ (CODE_LENGTH - 1) ≤ codeValue (generate_code r)
      ∧ codeValue (generate_code r) ≤ 10 ^ CODE_LENGTH - 1)
  ∧ (∀ n, 10 ^ (CODE_LENGTH - 1) ≤ n → n ≤ 10 ^ CODE_LENGTH - 1 →
        ∃ r, r < drawCount ∧ generate_code r = natToString n) := by
  have hdc : drawCount = 900000 := rfl
  have h5 : (10 : Nat) ^ (CODE_LENGTH - 1) = 100000 := by norm_num [CODE_LENGTH]
  have h6 : (10 : Nat) ^ CODE_LENGTH = 1000000 := by norm_num [CODE_LENGTH]
  refine ⟨?_, ?_, ?_⟩
  · intro r1 r2 _ _ heq
    have := congrArg codeValue heq
    rw [generate_code_value, generate_code_value] at this
    omega
  · intro r hr
    rw [generate_code_value]
    omega
  · intro n hlo hhi
    refine ⟨n - 10 ^ (CODE_LENGTH - 1), by omega, ?_⟩
    rw [generate_code_eq]
    have hn : 10 ^ (CODE_LENGTH - 1) + (n - 10 ^ (CODE_LENGTH - 1)) = n := by omega
    rw [hn]

/-- Witness for C6 (amended): the string of 100000 is hit by some draw. -/
theorem C6_uniform_over_full_range_witness :
    ∃ r, r < drawCount ∧ generate_code r = natToString 100000 :=
  C6_uniform_over_full_range.2.2 100000 (by norm_num [CODE_LENGTH])
    (by norm_num [CODE_LENGTH])

/-- A generated code is never the empty string. -/
theorem generate_code_ne_empty (r : Nat) : generate_code r ≠ "" := by
  intro h
  have hv := generate_code_value r
  rw [h] at hv
  have h0 : codeValue "" = 0 := rfl
  have h5 : (10 : Nat) ^ (CODE_LENGTH - 1) = 100000 := by norm_num [CODE_LENGTH]
  omega

/-- C4: with `maxAttempts = 3`, after an issue for an identifier, three
verifies with a wrong, non-matching code (each within the code's
lifetime) yield IncorrectCode remaining=2, IncorrectCode remaining=1,
then TooManyAttempts with the record deleted; a fourth verify returns
NotFound even with the correct code. -/
theorem C4_attempt_ceiling (t0 t1 t2 t3 t4 r : Nat) (p wrong : String) (s : Store)
    (hw : wrong ≠ "")
    (hmiss : verify_code wrong (hash_code (generate_code r)) = false)
    (ht1 : t1 ≤ t0 + CODE_LIFETIME_MINUTES * 60)
    (ht2 : t2 ≤ t0 + CODE_LIFETIME_MINUTES * 60)
    (ht3 : t3 ≤ t0 + CODE_LIFETIME_MINUTES * 60) :
    let s0 := (send_otp t0 r p true s).2
    let v1 := verify_otp t1 p (some wrong) s0
    let v2 := verify_otp t2 p (some wrong) v1.2
    let v3 := verify_otp t3 p (some wrong) v2.2
    let v4 := verify_otp t4 p (some (generate_code r)) v3.2
    v1.1 = Outcome.incorrectCode 2
  ∧ v2.1 = Outcome.incorrectCode 1
  ∧ v3.1 = Outcome.tooManyAttempts
  ∧ lookupStore p v3.2 = none
  ∧ v4.1 = Outcome.notFound := by
  dsimp only
  have hn1 : ¬ (t0 + CODE_LIFETIME_MINUTES * 60 < t1) := Nat.not_lt.mpr ht1
  have hn2 : ¬ (t0 + CODE_LIFETIME_MINUTES * 60 < t2) := Nat.not_lt.mpr ht2
  have hn3 : ¬ (t0 + CODE_LIFETIME_MINUTES * 60 < t3) := Nat.not_lt.mpr ht3
  have l0 : lookupStore p (send_otp t0 r p true s).2
      = some ⟨hash_code (generate_code r), t0 + CODE_LIFETIME_MINUTES * 60, 0⟩ := by
    rw [send_store_true]; exact lookup_insert_self _ _ _
  have e1 : verify_otp t1 p (some wrong) (send_otp t0 r p true s).2
      = (Outcome.incorrectCode 2,
         insertStore p ⟨hash_code (generate_code r), t0 + CODE_LIFETIME_MINUTES * 60, 1⟩
           (send_otp t0 r p true s).2) :=
    verify_incorrect l0 hw hn1 (show (0 : Nat) < MAX_VERIFICATION_ATTEMPTS by decide)
      hmiss (show (0 : Nat) + 1 < MAX_VERIFICATION_ATTEMPTS by decide)
  have l1 : lookupStore p
        (insertStore p ⟨hash_code (generate_code r), t0 + CODE_LIFETIME_MINUTES * 60, 1⟩
          (send_otp t0 r p true s).2)
      = some ⟨hash_code (generate_code r), t0 + CODE_LIFETIME_MINUTES * 60, 1⟩ :=
    lookup_insert_self _ _ _
  have e2 : verify_otp t2 p (some wrong)
        (verify_otp t1 p (some wrong) (send_otp t0 r p true s).2).2
      = (Outcome.incorrectCode 1,
         insertStore p ⟨hash_code (generate_code r), t0 + CODE_LIFETIME_MINUTES * 60, 2⟩
           (insertStore p ⟨hash_code (generate_code r), t0 + CODE_LIFETIME_MINUTES * 60, 1⟩
             (send_otp t0 r p true s).2)) := by
    rw [e1]
    exact verify_incorrect l1 hw hn2 (show (1 : Nat) < MAX_VERIFICATION_ATTEMPTS by decide)
      hmiss (show (1 : Nat) + 1 < MAX_VERIFICATION_ATTEMPTS by decide)
  have l2 : lookupStore p
        (insertStore p ⟨hash_code (generate_code r), t0 + CODE_LIFETIME_MINUTES * 60, 2⟩
          (insertStore p ⟨hash_code (generate_code r), t0 + CODE_LIFETIME_MINUTES * 60, 1⟩
            (send_otp t0 r p true s).2))
      = some ⟨hash_code (generate_code r), t0 + CODE_LIFETIME_MINUTES * 60, 2⟩ :=
    lookup_insert_self _ _ _
  have e3 : verify_otp t3 p (some wrong)
        (verify_otp t2 p (some wrong)
          (verify_otp t1 p (some wrong) (send_otp t0 r p true s).2).2).2
      = (Outcome.tooManyAttempts,
         eraseStore p
           (insertStore p ⟨hash_code (generate_code r), t0 + CODE_LIFETIME_MINUTES * 60, 2⟩
             (insertStore p ⟨hash_code (generate_code r), t0 + CODE_LIFETIME_MINUTES * 60, 1⟩
               (send_otp t0 r p true s).2))) := by
    rw [e2]
    exact verify_too_many_post l2 hw hn3
      (show (2 : Nat) < MAX_VERIFICATION_ATTEMPTS by decide) hmiss
      (show MAX_VERIFICATION_ATTEMPTS ≤ (2 : Nat) + 1 by decide)
  have l3 : lookupStore p
        (eraseStore p
          (insertStore p ⟨hash_code (generate_code r), t0 + CODE_LIFETIME_MINUTES * 60, 2⟩
            (insertStore p ⟨hash_code (generate_code r), t0 + CODE_LIFETIME_MINUTES * 60, 1⟩
              (send_otp t0 r p true s).2)))
      = none := lookup_erase_self _ _
  refine ⟨by rw [e1], by rw [e2], by rw [e3], by rw [e3]; exact l3, ?_⟩
  rw [e3]
  show (verify_otp t4 p (some (generate_code r))
      (eraseStore p
        (insertStore p ⟨hash_code (generate_code r), t0 + CODE_LIFETIME_MINUTES * 60, 2⟩
          (insertStore p ⟨hash_code (generate_code r), t0 + CODE_LIFETIME_MINUTES * 60, 1⟩
            (send_otp t0 r p true s).2)))).1 = Outcome.notFound
  rw [verify_not_found l3]

/-- Witness for C4: identifier "15550001111", issued code "123456"
(draw 23456), wrong code "000000", all calls at time 0. -/
theorem C4_attempt_ceiling_witness :
    let s0 := (send_otp 0 23456 "15550001111" true emptyStore).2
    let v1 := verify_otp 0 "15550001111" (some "000000") s0
    let v2 := verify_otp 0 "15550001111" (some "000000") v1.2
    let v3 := verify_otp 0 "15550001111" (some "000000") v2.2
    let v4 := verify_otp 0 "15550001111" (some (generate_code 23456)) v3.2
    v1.1 = Outcome.incorrectCode 2
  ∧ v2.1 = Outcome.incorrectCode 1
  ∧ v3.1 = Outcome.tooManyAttempts
  ∧ lookupStore "15550001111" v3.2 = none
  ∧ v4.1 = Outcome.notFound :=
  C4_attempt_ceiling 0 0 0 0 0 23456 "15550001111" "000000" emptyStore
    (by decide) (by decide) (by decide) (by decide) (by decide)

/-- Counterexample for C7: the generator may produce the same code twice
(draw 23456 both times gives "123456"); after two such issuances, a
verify with the first plaintext returns Success — so "never Success for
every pair of codes the generator may have produced" is false. -/
theorem C7_counterexample :
    (verify_otp 0 "15550001111" (some (generate_code 23456))
        ((send_otp 0 23456 "15550001111" true
          ((send_otp 0 23456 "15550001111" true emptyStore).2)).2)).1
      = Outcome.success := by decide

/-- C7 (amended): after two issuances in a row for an identifier whose
generated codes hash differently, a verify with the first plaintext
within the second code's lifetime yields IncorrectCode — never
Success. -/
theorem C7_reissue_overwrite (t1 t2 tv r1 r2 : Nat) (p : String) (s : Store)
    (hh : hash_code (generate_code r1) ≠ hash_code (generate_code r2))
    (htv : tv ≤ t2 + CODE_LIFETIME_MINUTES * 60) :
    (verify_otp tv p (some (generate_code r1))
        ((send_otp t2 r2 p true ((send_otp t1 r1 p true s).2)).2)).1
      = Outcome.incorrectCode 2
  ∧ (verify_otp tv p (some (generate_code r1))
        ((send_otp t2 r2 p true ((send_otp t1 r1 p true s).2)).2)).1
      ≠ Outcome.success := by
  have l0 : lookupStore p (send_otp t2 r2 p true ((send_otp t1 r1 p true s).2)).2
      = some ⟨hash_code (generate_code r2), t2 + CODE_LIFETIME_MINUTES * 60, 0⟩ := by
    rw [send_store_true]; exact lookup_insert_self _ _ _
  have hv : verify_code (generate_code r1) (hash_code (generate_code r2)) = false :=
    beq_eq_false_iff_ne.mpr hh
  have e := verify_incorrect l0 (generate_code_ne_empty r1) (Nat.not_lt.mpr htv)
    (show (0 : Nat) < MAX_VERIFICATION_ATTEMPTS by decide) hv
    (show (0 : Nat) + 1 < MAX_VERIFICATION_ATTEMPTS by decide)
  rw [e]
  exact ⟨rfl, by simp⟩

/-- Witness for C7 (amended): draws 23456 and 554321 give codes "123456"
and "654321" with distinct hashes; verifying the first after re-issue
yields IncorrectCode, not Success. -/
theorem C7_reissue_overwrite_witness :
    (verify_otp 0 "15550001111" (some (generate_code 23456))
        ((send_otp 0 554321 "15550001111" true
          ((send_otp 0 23456 "15550001111" true emptyStore).2)).2)).1
      = Outcome.incorrectCode 2
  ∧ (verify_otp 0 "15550001111" (some (generate_code 23456))
        ((send_otp 0 554321 "15550001111" true
          ((send_otp 0 23456 "15550001111" true emptyStore).2)).2)).1
      ≠ Outcome.success :=
  C7_reissue_overwrite 0 0 0 23456 554321 "15550001111" emptyStore (by decide) (by decide)

/-- C8 (amended): the hash is deterministic, the verifier accepts the
matching code, and rejects any candidate whose hash differs from the
stored one (by pigeonhole, SHA-256 collisions exist, so "rejects every
distinct candidate" cannot hold unconditionally). -/
theorem C8_hash_verify_roundtrip :
    (∀ c : String, hash_code c = hash_code c)
  ∧ (∀ c : String, verify_code c (hash_code c) = true)
  ∧ (∀ c c2 : String, hash_code c2 ≠ hash_code c → verify_code c2 (hash_code c) = false) :=
  ⟨fun _ => rfl, fun c => beq_self_eq_true (hash_code c),
   fun _ _ h => beq_eq_false_iff_ne.mpr h⟩

/-- Witness for C8 (amended): "000000" is rejected against the stored
hash of "123456". -/
theorem C8_hash_verify_roundtrip_witness :
    verify_code "000000" (hash_code "123456") = false :=
  C8_hash_verify_roundtrip.2.2 "123456" "000000" (by decide)

/-- Hex rendering depends only on the value modulo `16 ^ n`. -/
theorem toHexBE_mod_congr :
    ∀ n v w, v % 16 ^ n = w % 16 ^ n → toHexBE n v = toHexBE n w := by
  intro n
  induction n with
  | zero => intro v w _; rfl
  | succ n ih =>
    intro v w h
    have hdvd : (16 : Nat) ∣ 16 ^ (n + 1) := dvd_pow_self 16 (Nat.succ_ne_zero n)
    have h1 : v % 16 = w % 16 := by
      rw [← Nat.mod_mod_of_dvd v hdvd, h, Nat.mod_mod_of_dvd w hdvd]
    have h2 : v / 16 % 16 ^ n = w / 16 % 16 ^ n := by
      rw [← Nat.mod_mul_right_div_self v 16 (16 ^ n),
        ← Nat.mod_mul_right_div_self w 16 (16 ^ n),
        show (16 : Nat) * 16 ^ n = 16 ^ (n + 1) from (pow_succ' 16 n).symm, h]
    show toHexBE n (v / 16) ++ _ = toHexBE n (w / 16) ++ _
    rw [ih _ _ h2, h1]

/-- Counterexample for C8: SHA-256 maps the infinite set of strings into
finitely many 256-bit digests, so two distinct codes share a hash and
the verifier accepts the wrong one — `verify(c2, hash(c)) = false` for
every `c2 ≠ c` is false. -/
theorem C8_collision_counterexample :
    ¬ ∀ c c2 : String, c2 ≠ c → verify_code c2 (hash_code c) = false := by
  intro h
  obtain ⟨a, b, hab, hfeq⟩ := Finite.exists_ne_map_eq_of_infinite
    (fun s : String => (⟨sha256Nat s % 2 ^ 256, Nat.mod_lt _ (by positivity)⟩ : Fin (2 ^ 256)))
  have hmod : sha256Nat a % 2 ^ 256 = sha256Nat b % 2 ^ 256 := congrArg Fin.val hfeq
  have hmod16 : sha256Nat a % 16 ^ 64 = sha256Nat b % 16 ^ 64 := by
    rw [show (16 : Nat) ^ 64 = 2 ^ 256 by norm_num]
    exact hmod
  have hhash : hash_code a = hash_code b :=
    congrArg String.mk (toHexBE_mod_congr 64 _ _ hmod16)
  have hfalse := h b a hab
  rw [show verify_code a (hash_code b) = (hash_code a == hash_code b) from rfl, hhash,
    beq_self_eq_true] at hfalse
  exact Bool.noConfusion hfalse

end OtpServer

